import Mathlib

/-!
Verification development for the EduAlign matching engine
(`backend/colleges/matching.py` and the `/api/match` endpoint of `main.py`).

The Python pipeline is shallowly embedded:
* pandas rows become `Candidate` records; a possibly-NaN float cell becomes
  `Option ℚ`;
* float arithmetic is idealised as exact real arithmetic (`ℝ`); values that
  never leave rational ground (preferences, stored dimension scores, the
  profile-affinity bonus) stay in `ℚ`;
* the Groq client, the ambient cache dictionary and the `random` module are
  threaded explicitly: `getMatches` receives the cache as a value, the
  sequence of external-call outcomes as a function of the attempt number, and
  the stream of `random.choice` draws as a function of the match rank.
-/

namespace EduAlign

/-- The eight experience dimensions, in the order of
`preprocessing.EXPERIENCE_DIMS`. -/
def EXPERIENCE_DIMS : List String :=
  ["academic_intensity", "social_life", "inclusivity", "career_support",
   "collaboration_vs_competition", "mental_health_culture", "campus_safety",
   "overall_satisfaction"]

/-- Name of the `i`-th experience dimension. -/
def dimName (i : Fin 8) : String := EXPERIENCE_DIMS.getD i ""

/-- `DIM_LABELS` from `matching.py`. -/
def DIM_LABELS : List (String × String) :=
  [("academic_intensity", "academic rigor"),
   ("social_life", "social scene"),
   ("inclusivity", "campus diversity and inclusion"),
   ("career_support", "career services and job placement"),
   ("collaboration_vs_competition", "collaborative culture"),
   ("mental_health_culture", "mental health support"),
   ("campus_safety", "campus safety"),
   ("overall_satisfaction", "overall student satisfaction")]

/-- `DIM_LABELS.get(d, d)`. -/
def dimLabel (d : String) : String := ((DIM_LABELS.lookup d).getD d)

/-- A student's preference vector: the value of each of the 8 dimensions
(`student_vector[d]` for `d` in `EXPERIENCE_DIMS`). -/
abbrev StudentVec := Fin 8 → ℚ

/-- The optional student profile (`StudentProfile` in `main.py`, dumped with
`exclude_none=True`, so a `none` field is an absent dict key). -/
structure Profile where
  gpa : Option ℚ
  sat : Option ℚ
  major : Option String
  location : Option String
  extracurriculars : Option String
  in_state_preference : Option Bool
  free_text : Option String
deriving DecidableEq, Repr

/-- Python truthiness of the profile dict: an empty dict is falsy.  With
`exclude_none=True` the dict is non-empty iff some field is present. -/
def Profile.truthy (p : Profile) : Bool :=
  p.gpa.isSome || p.sat.isSome || p.major.isSome || p.location.isSome ||
  p.extracurriculars.isSome || p.in_state_preference.isSome || p.free_text.isSome

/-- One row of the merged college dataframe, restricted to the columns the
matching engine reads.  A NaN cell is `none`. -/
structure Candidate where
  unitid : ℤ
  instnm : String
  city : String
  stabbr : String
  sat_avg : Option ℚ
  dims : Fin 8 → Option ℚ

/-- One entry of the `matches` list returned by `get_matches`.  The fallback
path always fills `unitid` and `dims`; the LLM path fills them only for
entries whose name matches a shortlisted candidate (`Option` models the
conditionally-added dict keys). -/
structure MatchResult where
  college_name : String
  unitid : Option ℤ
  similarity_score : ℝ
  explanation : String
  strengths : List String
  tradeoffs : List String
  dims : Option (Fin 8 → ℚ)

/-- The dict returned by `get_matches`.  `matchList` models the "matches"
key (the word itself is reserved in Lean). -/
structure MatchResponse where
  matchList : List MatchResult
  raw_profiles : List Candidate
  used_fallback : Bool

/-- One entry of the parsed LLM JSON (`result["matches"][i]`), assumed
schema-valid (a response that fails to parse is an error outcome instead). -/
structure LLMEntry where
  college_name : String
  similarity_score : ℝ
  explanation : String
  strengths : List String
  tradeoffs : List String

/-- Outcome of one attempt to call the external reasoning service:
a usable (parsed, schema-valid) response, a retryable error (network,
timeout, unparseable JSON), or an unrecoverable error (rate limit,
authentication, permission). -/
inductive Outcome where
  | success (entries : List LLMEntry)
  | transient
  | unrecoverable

/-- Whether an attempt outcome is a usable response. -/
def Outcome.isSuccess : Outcome → Bool
  | .success _ => true
  | _ => false

/-- `US_STATES` from `matching.py` (dict in insertion order). -/
def US_STATES : List (String × String) :=
  [("alabama", "AL"), ("alaska", "AK"), ("arizona", "AZ"), ("arkansas", "AR"),
   ("california", "CA"), ("colorado", "CO"), ("connecticut", "CT"), ("delaware", "DE"),
   ("florida", "FL"), ("georgia", "GA"), ("hawaii", "HI"), ("idaho", "ID"),
   ("illinois", "IL"), ("indiana", "IN"), ("iowa", "IA"), ("kansas", "KS"),
   ("kentucky", "KY"), ("louisiana", "LA"), ("maine", "ME"), ("maryland", "MD"),
   ("massachusetts", "MA"), ("michigan", "MI"), ("minnesota", "MN"),
   ("mississippi", "MS"), ("missouri", "MO"), ("montana", "MT"), ("nebraska", "NE"),
   ("nevada", "NV"), ("new hampshire", "NH"), ("new jersey", "NJ"),
   ("new mexico", "NM"), ("new york", "NY"), ("north carolina", "NC"),
   ("north dakota", "ND"), ("ohio", "OH"), ("oklahoma", "OK"), ("oregon", "OR"),
   ("pennsylvania", "PA"), ("rhode island", "RI"), ("south carolina", "SC"),
   ("south dakota", "SD"), ("tennessee", "TN"), ("texas", "TX"), ("utah", "UT"),
   ("vermont", "VT"), ("virginia", "VA"), ("washington", "WA"),
   ("west virginia", "WV"), ("wisconsin", "WI"), ("wyoming", "WY"),
   ("district of columbia", "DC")]

/-- `_resolve_state`: convert a location string to a 2-letter abbreviation.
Python `name in loc` (substring test) becomes `List.isInfixOf` on the
character lists. -/
def resolve_state (location : String) : Option String :=
  let loc := location.trim.toLower
  if US_STATES.any (fun kv => kv.2 == loc.toUpper) then some loc.toUpper
  else match US_STATES.lookup loc with
  | some abbr => some abbr
  | none => (US_STATES.find? (fun kv => decide (kv.1.toList <:+: loc.toList))).map (·.2)

/-- Per-candidate body of `_profile_affinity`.  The numpy code is a chain of
element-wise vector operations, so it is embedded as one candidate-wise
function; the globals (`max_possible`, the resolved state, the factor
weights) depend only on the profile.  `np.clip(x, 0, 1)` is
`min (max x 0) 1`; a candidate with unknown SAT average contributes the
neutral `0.5`. -/
def affinityOneOpt (profile : Option Profile) (c : Candidate) : ℚ :=
  match profile with
  | none => 0
  | some p =>
    if !p.truthy then 0 else
    let stateOpt : Option String :=
      match p.location with
      | some l => if l ≠ "" then resolve_state l else none
      | none => none
    let w : ℚ := if p.in_state_preference = some true then 2 else 1
    let stateMax : ℚ := match stateOpt with | some _ => w | none => 0
    let satOn : Bool := match p.sat with | some s => decide (s ≠ 0) | none => false
    let satMax : ℚ := if satOn then 1 else 0
    let max_possible : ℚ := stateMax + satMax
    if max_possible = 0 then 0
    else
      let stateTotal : ℚ :=
        match stateOpt with
        | some st => (if c.stabbr = st then 1 else 0) * w
        | none => 0
      let satTotal : ℚ :=
        match p.sat with
        | some s =>
          if s ≠ 0 then
            match c.sat_avg with
            | some sa => min (max (1 - ((|sa - s|) - 200) / 200) 0) 1
            | none => 1/2
          else 0
        | none => 0
      (stateTotal + satTotal) / max_possible

/-- `_profile_affinity`: the 0-1 affinity bonus of each candidate
(`np.zeros(n)` when there is no profile signal). -/
def profile_affinity (cands : List Candidate) (profile : Option Profile) :
    List ℚ :=
  cands.map (affinityOneOpt profile)

/-- `student_norm` of `_composite_scores`: `student_vector[d] / 10.0`. -/
def student_norm (sv : StudentVec) : Fin 8 → ℚ := fun i => sv i / 10

/-- `weights` of `_composite_scores`: the raw 1-10 importance values. -/
def weights (sv : StudentVec) : Fin 8 → ℚ := fun i => sv i

/-- Dot product on 8-vectors. -/
def dotP (u v : Fin 8 → ℝ) : ℝ := ∑ i, u i * v i

/-- `sklearn.metrics.pairwise.cosine_similarity` for a single pair of rows.
(When a vector is zero sklearn outputs 0, which agrees with Lean's
`x / 0 = 0` convention since the numerator is then 0 as well.) -/
noncomputable def cosineSim (u v : Fin 8 → ℝ) : ℝ :=
  dotP u v / (Real.sqrt (dotP u u) * Real.sqrt (dotP v v))

/-- `student_norm * weights`, the weighted student row. -/
def weightedStudent (sv : StudentVec) : Fin 8 → ℝ :=
  fun i => ((student_norm sv i : ℚ) : ℝ) * ((weights sv i : ℚ) : ℝ)

/-- The weighted cosine similarity of one clean candidate row
(`candidates[EXPERIENCE_DIMS].values * weights`). -/
noncomputable def weightedCosine (sv : StudentVec)
    (cd : Candidate × (Fin 8 → ℚ)) : ℝ :=
  cosineSim (weightedStudent sv) (fun i => ((cd.2 i : ℚ) : ℝ) * ((weights sv i : ℚ) : ℝ))

/-- One candidate's composite score:
`(1 - affinity_weight) * cosine + affinity_weight * affinity`. -/
noncomputable def compositeOne (sv : StudentVec) (profile : Option Profile)
    (aw : ℝ) (cd : Candidate × (Fin 8 → ℚ)) : ℝ :=
  (1 - aw) * weightedCosine sv cd + aw * ((affinityOneOpt profile cd.1 : ℚ) : ℝ)

/-- `_composite_scores` over a clean candidate list (the callers have already
dropped rows with missing dimensions); the row-wise numpy pipeline is the
element-wise map of `compositeOne`.  All call sites in the source use the
default `affinity_weight = 0.20`. -/
noncomputable def composite_scores (sv : StudentVec)
    (cands : List (Candidate × (Fin 8 → ℚ))) (profile : Option Profile)
    (aw : ℝ) : List ℝ :=
  cands.map (compositeOne sv profile aw)

/-- The total dimension vector of a candidate, when all 8 cells are present. -/
def cleanDims (c : Candidate) : Option (Fin 8 → ℚ) :=
  if h : ∀ i, (c.dims i).isSome = true then some (fun i => (c.dims i).get (h i))
  else none

/-- `candidates.dropna(subset=EXPERIENCE_DIMS)`: keep rows with all 8
experience dimensions, paired with their total dimension vector. -/
def dropna (cands : List Candidate) : List (Candidate × (Fin 8 → ℚ)) :=
  cands.filterMap (fun c => (cleanDims c).map (fun d => (c, d)))

/-- Score of index `i` in a score list (`scores[i]`). -/
noncomputable def argScore (scores : List ℝ) (i : ℕ) : ℝ := scores.getD i 0

open scoped Classical in
/-- Models `scores.argsort()[::-1]`: the indices `0 .. n-1` sorted by
descending score.  numpy's default sort is unstable, so the order among
equal scores is not specified by the source; the model uses a stable
insertion sort. -/
noncomputable def argsortDesc (scores : List ℝ) : List ℕ :=
  List.insertionSort (fun i j => argScore scores i ≥ argScore scores j)
    (List.range scores.length)

open scoped Classical in
/-- `_shortlist`: rank candidates by composite score and keep the top `n`
(the whole clean pool, unsorted, when it has at most `n` rows). -/
noncomputable def shortlist (sv : StudentVec) (cands : List Candidate) (n : ℕ)
    (profile : Option Profile) : List (Candidate × (Fin 8 → ℚ)) :=
  let clean := dropna cands
  if clean.isEmpty || clean.length ≤ n then clean
  else
    let scores := composite_scores sv clean profile 0.20
    ((argsortDesc scores).take n).filterMap (fun i => clean.get? i)

/-- `random.choice(xs)` given the ambient draw `k` of the global random
source: some element of the list, selected by the draw. -/
def pick (xs : List String) (k : ℕ) : String := xs.getD (k % xs.length) ""

/-- Python `f"{score:.0%}"`: the score as a whole-number percentage.
(CPython rounds floats half-to-even; `round` rounds half-up — the two agree
except exactly halfway between two integers, which no claim exercises.) -/
noncomputable def fmtPct (x : ℝ) : String := toString (round (100 * x)) ++ "%"

/-- `sorted(student_vector.items(), key=..., reverse=True)[0][0]`: the first
dimension (in canonical dict order) carrying the maximal rating; Python's
sort is stable and `insertionSort` with `≥` keeps the original order of
ties. -/
def topPriority (sv : StudentVec) : Fin 8 :=
  (List.insertionSort (fun a b : Fin 8 => sv a ≥ sv b) (List.finRange 8)).headD 0

/-- `_explain`: the template fallback explanation.  `draws` is the pair of
ambient `random.choice` draws consumed by the call (opener, trade-off
phrase). -/
noncomputable def explain (name city state : String) (score : ℝ)
    (dim_profile : Fin 8 → ℚ) (sv : StudentVec)
    (best_dims weak_dims : List String) (draws : ℕ × ℕ) : String :=
  let s1 := dimLabel (best_dims.getD 0 "")
  let s2 := if best_dims.length > 1 then some (dimLabel (best_dims.getD 1 "")) else none
  let pct := fmtPct score
  let openers := [
    "With a " ++ pct ++ " match score, " ++ name ++ " in " ++ city ++ ", " ++ state ++ " stands out",
    name ++ " (" ++ city ++ ", " ++ state ++ ") earns a " ++ pct ++ " alignment",
    "Scoring " ++ pct ++ " overall, " ++ name ++ " in " ++ city ++ ", " ++ state ++ " is a strong fit"]
  let opener := pick openers draws.1
  let strength := "for its " ++ s1 ++ (match s2 with | some t => " and " ++ t | none => "")
  let prio_name := dimLabel (dimName (topPriority sv))
  let priority_line :=
    " Given that you prioritize " ++ prio_name ++ ", this school delivers well in that area."
  let tradeoff_line :=
    match weak_dims with
    | [] => ""
    | wd :: _ =>
      let w := dimLabel wd
      pick [" One consideration: " ++ w ++ " scores below your preference, so weigh that trade-off.",
            " Worth noting that " ++ w ++ " is a weaker area here relative to your ideal.",
            " On the flip side, " ++ w ++ " doesn\x27t fully match your expectations."] draws.2
  opener ++ " " ++ strength ++ "." ++ priority_line ++ tradeoff_line

/-- Python `round(x, 4)` (float rounding idealised as exact half-up
rounding; CPython rounds half-to-even, which differs only exactly halfway
between two 4-decimal values). -/
noncomputable def round4 (x : ℝ) : ℝ := ((round (x * 10000) : ℤ) : ℝ) / 10000

/-- `arr.min()` of a nonempty array (`0` junk value on `[]`, where the
source would raise). -/
noncomputable def listMin : List ℝ → ℝ
  | [] => 0
  | x :: xs => xs.foldl min x

/-- `arr.max()` of a nonempty array. -/
noncomputable def listMax : List ℝ → ℝ
  | [] => 0
  | x :: xs => xs.foldl max x

open scoped Classical in
/-- The min-max rescale of the returned top-N window into [0.70, 0.98]
(`np.full_like(top_raw, 0.85)` when the window is degenerate). -/
noncomputable def scaleWindow (top_raw : List ℝ) : List ℝ :=
  let s_min := listMin top_raw
  let s_max := listMax top_raw
  if s_max - s_min > 1e-9 then
    top_raw.map (fun x => 0.70 + 0.28 * (x - s_min) / (s_max - s_min))
  else
    top_raw.map (fun _ => 0.85)

open scoped Classical in
/-- One fallback match dict, built from the candidate at `rank` with scaled
score `score`. -/
noncomputable def mkFallbackMatch (sv : StudentVec) (rng : ℕ → ℕ × ℕ)
    (rank : ℕ) (score : ℝ) (cd : Candidate × (Fin 8 → ℚ)) : MatchResult :=
  let dp := cd.2
  let best_dims :=
    ((List.insertionSort (fun a b : Fin 8 => dp a ≥ dp b) (List.finRange 8)).take 3).map dimName
  let weak_dims :=
    ((List.finRange 8).filter (fun j => dp j < student_norm sv j - 1/5)).map dimName
  { college_name := cd.1.instnm
    unitid := some cd.1.unitid
    similarity_score := round4 score
    explanation := explain cd.1.instnm cd.1.city cd.1.stabbr score dp sv
      best_dims weak_dims (rng rank)
    strengths := best_dims
    tradeoffs := weak_dims.take 3
    dims := some dp }

open scoped Classical in
/-- `_weighted_cosine_match`: composite scoring with template explanations.
`enumerate(top_idx)` reading `scaled[rank]` is embedded as the enumeration
of `top_idx.zip scaled` (the two arrays have the same length). -/
noncomputable def weighted_cosine_match (sv : StudentVec)
    (cands0 : List Candidate) (top_n : ℕ) (profile : Option Profile)
    (rng : ℕ → ℕ × ℕ) : List MatchResult :=
  let cands := dropna cands0
  if cands.isEmpty then []
  else
    let raw_scores := composite_scores sv cands profile 0.20
    let top_idx := (argsortDesc raw_scores).take top_n
    let top_raw := top_idx.map (argScore raw_scores)
    let scaled := scaleWindow top_raw
    ((top_idx.zip scaled).enum).filterMap (fun rp =>
      (cands.get? rp.2.1).map (fun cd => mkFallbackMatch sv rng rp.1 rp.2.2 cd))

/-- The canonical fingerprint `_cache_key` builds by serialising the sorted
preference items, the sorted profile items and `top_n`; two requests get
equal keys iff those inputs agree, which is all the model needs. -/
structure CacheKey where
  v : List (String × ℚ)
  p : Option Profile
  n : ℕ
deriving DecidableEq

/-- `_cache_key`. -/
def cache_key (sv : StudentVec) (profile : Option Profile) (top_n : ℕ) :
    CacheKey :=
  ⟨(List.finRange 8).map (fun i => (dimName i, sv i)), profile, top_n⟩

/-- Lookup in the module-level `_cache` dict (most recent insertion first). -/
def cacheLookup : List (CacheKey × MatchResponse) → CacheKey → Option MatchResponse
  | [], _ => none
  | kv :: rest, key => if kv.1 = key then some kv.2 else cacheLookup rest key

/-- `_cosine_result`: package cosine-only results with `used_fallback=True`. -/
noncomputable def cosine_result (sv : StudentVec) (cands : List Candidate)
    (top_n : ℕ) (profile : Option Profile) (rng : ℕ → ℕ × ℕ) : MatchResponse :=
  let fallback := weighted_cosine_match sv cands top_n profile rng
  let names := fallback.map (·.college_name)
  let profiles := cands.filter (fun c => names.contains c.instnm)
  ⟨fallback, profiles, true⟩

/-- The SUCCESS branch of the orchestrator: map returned names back to the
shortlist, enrich matched entries with `UNITID` and the 8 dimension values
(entries with no matching shortlisted candidate are appended unchanged),
truncate to `top_n`, `used_fallback=False`. -/
def llmSuccess (top_n : ℕ) (shortlisted : List (Candidate × (Fin 8 → ℚ)))
    (entries : List LLMEntry) : MatchResponse :=
  let matched_names := entries.map (·.college_name)
  let profiles := shortlisted.filter (fun cd => matched_names.contains cd.1.instnm)
  let enriched := (entries.take top_n).map (fun e =>
    match profiles.find? (fun cd => cd.1.instnm == e.college_name) with
    | some cd =>
      { college_name := e.college_name, unitid := some cd.1.unitid,
        similarity_score := e.similarity_score, explanation := e.explanation,
        strengths := e.strengths, tradeoffs := e.tradeoffs, dims := some cd.2 }
    | none =>
      { college_name := e.college_name, unitid := none,
        similarity_score := e.similarity_score, explanation := e.explanation,
        strengths := e.strengths, tradeoffs := e.tradeoffs, dims := none })
  ⟨enriched, profiles.map (·.1), false⟩

/-- The retry loop of `get_matches` (`for attempt in range(1, MAX_RETRIES+1)`).
`outcome attempt` is what the external call raises or returns on that
attempt; the third component of the result counts the external calls
issued.  Exhausted fuel and unrecoverable errors fall back to the cosine
result over the full candidate pool; only a success is written to the
cache. -/
noncomputable def attemptLoop (sv : StudentVec) (top_n : ℕ)
    (profile : Option Profile) (rng : ℕ → ℕ × ℕ) (cands : List Candidate)
    (shortlisted : List (Candidate × (Fin 8 → ℚ))) (key : CacheKey)
    (cache : List (CacheKey × MatchResponse)) (outcome : ℕ → Outcome) :
    ℕ → ℕ → ℕ → MatchResponse × List (CacheKey × MatchResponse) × ℕ
  | _, 0, calls => (cosine_result sv cands top_n profile rng, cache, calls)
  | attempt, fuel + 1, calls =>
    match outcome attempt with
    | .success entries =>
      let out := llmSuccess top_n shortlisted entries
      (out, (key, out) :: cache, calls + 1)
    | .unrecoverable =>
      (cosine_result sv cands top_n profile rng, cache, calls + 1)
    | .transient =>
      attemptLoop sv top_n profile rng cands shortlisted key cache outcome
        (attempt + 1) fuel (calls + 1)

/-- `get_matches`.  The module-level state and environment are explicit:
`merged` is `load_merged_data()`, `apiKey` is whether `_get_groq()` returns a
client, `outcome` gives each attempt's result, `rng` the ambient random
draws and `cache` the `_cache` dict.  Returns the response, the cache after
the call, and the number of external calls issued. -/
noncomputable def getMatches (sv : StudentVec) (top_n : ℕ)
    (profile : Option Profile) (merged : List Candidate) (apiKey : Bool)
    (outcome : ℕ → Outcome) (rng : ℕ → ℕ × ℕ)
    (cache : List (CacheKey × MatchResponse)) :
    MatchResponse × List (CacheKey × MatchResponse) × ℕ :=
  let key := cache_key sv profile top_n
  match cacheLookup cache key with
  | some r => (r, cache, 0)
  | none =>
    let candidates := merged.filter (fun c => (c.dims 0).isSome)
    if candidates.isEmpty then (⟨[], [], false⟩, cache, 0)
    else
      let shortlisted := shortlist sv candidates 15 profile
      if apiKey then
        attemptLoop sv top_n profile rng candidates shortlisted key cache outcome 1 3 0
      else
        (cosine_result sv candidates top_n profile rng, cache, 0)

/-- The student vector `get_matches` reads out of the raw preference dict
(after `api_match` has checked every dimension key is present). -/
def prefsVec (prefs : List (String × ℚ)) : StudentVec :=
  fun i => (prefs.lookup (dimName i)).getD 0

/-- The `/api/match` endpoint (`api_match` in `main.py`): reject the request
with `HTTPException(400, ...)` naming the first missing dimension key,
otherwise run the pipeline.  No other validation is performed on the
preference values. -/
noncomputable def apiMatch (prefs : List (String × ℚ)) (top_n : ℕ)
    (profile : Option Profile) (merged : List Candidate) (apiKey : Bool)
    (outcome : ℕ → Outcome) (rng : ℕ → ℕ × ℕ)
    (cache : List (CacheKey × MatchResponse)) :
    Except String (MatchResponse × List (CacheKey × MatchResponse) × ℕ) :=
  match EXPERIENCE_DIMS.find? (fun d => !(prefs.any (fun kv => kv.1 == d))) with
  | some d => .error ("Missing dimension: " ++ d)
  | none => .ok (getMatches (prefsVec prefs) top_n profile merged apiKey outcome rng cache)

/-! ### Concrete instances used by witnesses and counterexamples -/

/-- A student who rates every dimension 5. -/
def svC : StudentVec := fun _ => 5

/-- A student who rates every dimension 1. -/
def svOne : StudentVec := fun _ => 1

/-- A candidate whose experience vector is all zeros. -/
def cA : Candidate := ⟨100, "Alpha University", "Springfield", "IL", none, fun _ => some 0⟩

/-- A candidate whose experience vector is all `1/2` (parallel to `svC`'s
weighted student vector, so its weighted cosine similarity is exactly 1). -/
def cB : Candidate := ⟨200, "Beta College", "Shelbyville", "IL", none, fun _ => some (1/2)⟩

/-- A second candidate with the same experience vector as `cB` but a
different id and name (a scoring tie). -/
def cB2 : Candidate := ⟨201, "Beta College Prime", "Ogdenville", "IL", none, fun _ => some (1/2)⟩

/-- A fixed ambient random stream. -/
def rng0 : ℕ → ℕ × ℕ := fun _ => (0, 0)

/-- An LLM entry naming a college that is not in any candidate pool. -/
noncomputable def entryGhost : LLMEntry := ⟨"Ghost University", 9/10, "strong alignment", [], []⟩

/-- A preference dict with all 8 keys, every value 12 (out of the 1-10
range). -/
def prefsTwelve : List (String × ℚ) := EXPERIENCE_DIMS.map (fun d => (d, 12))

/-- A preference dict missing the `career_support` key. -/
def prefsNoCareer : List (String × ℚ) :=
  (EXPERIENCE_DIMS.filter (fun d => d ≠ "career_support")).map (fun d => (d, 5))

/-- A well-formed preference dict (all 8 keys, in-range values). -/
def prefsGood : List (String × ℚ) := EXPERIENCE_DIMS.map (fun d => (d, 5))

/-- An LLM entry naming the shortlisted candidate `cB`. -/
noncomputable def entryBeta : LLMEntry := ⟨"Beta College", 9/10, "good fit", [], []⟩

/-- Every field of a match dict except the explanation string. -/
def MatchResult.core (m : MatchResult) :
    String × Option ℤ × ℝ × List String × List String × Option (Fin 8 → ℚ) :=
  (m.college_name, m.unitid, m.similarity_score, m.strengths, m.tradeoffs, m.dims)

/-! ### Helper lemmas -/

lemma argsortDesc_sorted (s : List ℝ) :
    List.Sorted (fun i j => argScore s i ≥ argScore s j) (argsortDesc s) := by
  haveI : IsTotal ℕ (fun i j => argScore s i ≥ argScore s j) :=
    ⟨fun a b => le_total (argScore s b) (argScore s a)⟩
  haveI : IsTrans ℕ (fun i j => argScore s i ≥ argScore s j) :=
    ⟨fun a b c hab hbc => le_trans hbc hab⟩
  exact List.sorted_insertionSort _ _

lemma argsortDesc_perm (s : List ℝ) : (argsortDesc s).Perm (List.range s.length) :=
  List.perm_insertionSort _ _

lemma argsortDesc_mem_lt (s : List ℝ) {i : ℕ} (h : i ∈ argsortDesc s) :
    i < s.length :=
  List.mem_range.mp ((argsortDesc_perm s).mem_iff.mp h)

lemma round4_mono {a b : ℝ} (h : b ≤ a) : round4 b ≤ round4 a := by
  rw [round4, round4]
  have hr : round (b * 10000) ≤ round (a * 10000) := by
    rw [round_eq, round_eq]
    exact Int.floor_mono (by linarith)
  have hc : ((round (b * 10000) : ℤ) : ℝ) ≤ ((round (a * 10000) : ℤ) : ℝ) := by exact_mod_cast hr
  exact div_le_div_of_nonneg_right hc (by norm_num)

lemma scaleWindow_sorted (l : List ℝ) (h : List.Sorted (fun a b : ℝ => a ≥ b) l) :
    List.Sorted (fun a b : ℝ => a ≥ b) (scaleWindow l) := by
  rw [scaleWindow]
  split
  case isTrue hcond =>
    refine List.pairwise_map.mpr (h.imp ?_)
    intro a b hab
    have hD : (0:ℝ) < listMax l - listMin l := lt_trans (by norm_num) hcond
    have hle : (b - listMin l) / (listMax l - listMin l) ≤ (a - listMin l) / (listMax l - listMin l) :=
      div_le_div_of_nonneg_right (by linarith) (le_of_lt hD)
    rw [ge_iff_le, add_le_add_iff_left, mul_div_assoc, mul_div_assoc]
    exact mul_le_mul_of_nonneg_left hle (by norm_num)
  case isFalse hcond =>
    exact List.pairwise_map.mpr (h.imp fun _ => le_refl _)

lemma wcm_length_le (sv : StudentVec) (cands0 : List Candidate) (top_n : ℕ)
    (profile : Option Profile) (rng : ℕ → ℕ × ℕ) :
    (weighted_cosine_match sv cands0 top_n profile rng).length ≤ top_n := by
  rw [weighted_cosine_match]
  split
  · simp
  · refine le_trans (List.length_filterMap_le _ _) ?_
    rw [List.enum_length, List.length_zip]
    exact le_trans (min_le_left _ _) (le_trans (List.length_take_le _ _) (le_refl _))

lemma filterMap_score_eq (sv : StudentVec) (rng : ℕ → ℕ × ℕ)
    (cands : List (Candidate × (Fin 8 → ℚ))) :
    ∀ (tis : List ℕ) (scs : List ℝ) (n : ℕ), (∀ i ∈ tis, i < cands.length) →
      tis.length = scs.length →
      (((tis.zip scs).enumFrom n).filterMap (fun rp =>
        (cands.get? rp.2.1).map (fun cd => mkFallbackMatch sv rng rp.1 rp.2.2 cd))).map
          MatchResult.similarity_score = scs.map round4
  | [], [], n, _, _ => by simp
  | [], s :: ss, n, _, h => by simp at h
  | t :: ts, [], n, _, h => by simp at h
  | t :: ts, s :: ss, n, hb, h => by
    have ht : t < cands.length := hb t (by simp)
    have hcd : cands.get? t = some (cands.get ⟨t, ht⟩) := List.get?_eq_get ht
    have ih := filterMap_score_eq sv rng cands ts ss (n + 1)
      (fun i hi => hb i (by simp [hi])) (by simpa using h)
    simp only [List.zip] at ih ⊢
    simp only [List.zip_cons_cons, List.zipWith_cons_cons, List.enumFrom, List.filterMap, hcd,
      Option.map_some']
    simp only [List.map_cons]
    rw [ih]
    simp [mkFallbackMatch]

lemma wcm_scores_eq (sv : StudentVec) (cands0 : List Candidate) (top_n : ℕ)
    (profile : Option Profile) (rng : ℕ → ℕ × ℕ) :
    (weighted_cosine_match sv cands0 top_n profile rng).map MatchResult.similarity_score
      = (scaleWindow (((argsortDesc (composite_scores sv (dropna cands0) profile 0.20)).take top_n).map
          (argScore (composite_scores sv (dropna cands0) profile 0.20)))).map round4 ∨
    (weighted_cosine_match sv cands0 top_n profile rng) = [] := by
  rw [weighted_cosine_match]
  split
  · right; rfl
  · left
    rw [List.enum]
    apply filterMap_score_eq
    · intro i hi
      have hm : i ∈ argsortDesc (composite_scores sv (dropna cands0) profile 0.20) :=
        List.mem_of_mem_take hi
      have := argsortDesc_mem_lt _ hm
      rwa [composite_scores, List.length_map] at this
    · rw [scaleWindow]
      split <;> simp

lemma wcm_scores_sorted (sv : StudentVec) (cands0 : List Candidate) (top_n : ℕ)
    (profile : Option Profile) (rng : ℕ → ℕ × ℕ) :
    List.Sorted (fun a b : ℝ => a ≥ b)
      ((weighted_cosine_match sv cands0 top_n profile rng).map MatchResult.similarity_score) := by
  rcases wcm_scores_eq sv cands0 top_n profile rng with h | h
  · rw [h]
    set scores := composite_scores sv (dropna cands0) profile 0.20 with hs
    have h1 : List.Sorted (fun i j => argScore scores i ≥ argScore scores j)
        ((argsortDesc scores).take top_n) :=
      List.Pairwise.sublist (List.take_sublist _ _) (argsortDesc_sorted scores)
    have h2 : List.Sorted (fun a b : ℝ => a ≥ b)
        (((argsortDesc scores).take top_n).map (argScore scores)) :=
      List.pairwise_map.mpr h1
    exact List.pairwise_map.mpr ((scaleWindow_sorted _ h2).imp fun hab => round4_mono hab)
  · rw [h]; simp

lemma explain_ne_empty (name city state : String) (score : ℝ) (dp : Fin 8 → ℚ)
    (sv : StudentVec) (bd wd : List String) (draws : ℕ × ℕ) :
    explain name city state score dp sv bd wd draws ≠ "" := by
  rw [explain.eq_def]
  intro h
  have hl := congrArg String.length h
  simp only [String.length_append, String.length_empty] at hl
  have h1 : (" " : String).length = 1 := rfl
  rw [h1] at hl
  omega

lemma wcm_explanation_ne_empty (sv : StudentVec) (cands0 : List Candidate)
    (top_n : ℕ) (profile : Option Profile) (rng : ℕ → ℕ × ℕ) :
    ∀ m ∈ weighted_cosine_match sv cands0 top_n profile rng, m.explanation ≠ "" := by
  intro m hm
  rw [weighted_cosine_match] at hm
  split at hm
  · simp at hm
  · obtain ⟨rp, _, hsome⟩ := List.mem_filterMap.mp hm
    obtain ⟨cd, _, heq⟩ := Option.map_eq_some'.mp hsome
    rw [← heq]
    simp only [mkFallbackMatch]
    exact explain_ne_empty _ _ _ _ _ _ _ _ _

lemma attemptLoop_cases (sv : StudentVec) (top_n : ℕ) (profile : Option Profile)
    (rng : ℕ → ℕ × ℕ) (cands : List Candidate)
    (shortlisted : List (Candidate × (Fin 8 → ℚ))) (key : CacheKey)
    (cache : List (CacheKey × MatchResponse)) (outcome : ℕ → Outcome) :
    ∀ fuel attempt calls,
      (let R := attemptLoop sv top_n profile rng cands shortlisted key cache outcome attempt fuel calls
       (R.1 = cosine_result sv cands top_n profile rng ∧ R.2.1 = cache) ∨
       (∃ entries, R.1 = llmSuccess top_n shortlisted entries ∧ R.2.1 = (key, R.1) :: cache)) := by
  intro fuel
  induction fuel with
  | zero => intro attempt calls; left; exact ⟨rfl, rfl⟩
  | succ n ih =>
    intro attempt calls
    simp only [attemptLoop]
    cases ho : outcome attempt with
    | success es => right; exact ⟨es, rfl, rfl⟩
    | unrecoverable => left; exact ⟨rfl, rfl⟩
    | transient => exact ih (attempt + 1) (calls + 1)

lemma attemptLoop_allFail (sv : StudentVec) (top_n : ℕ) (profile : Option Profile)
    (rng : ℕ → ℕ × ℕ) (cands : List Candidate)
    (shortlisted : List (Candidate × (Fin 8 → ℚ))) (key : CacheKey)
    (cache : List (CacheKey × MatchResponse)) (outcome : ℕ → Outcome)
    (hfail : ∀ k, (outcome k).isSuccess = false) :
    ∀ fuel attempt calls, ∃ c,
      attemptLoop sv top_n profile rng cands shortlisted key cache outcome attempt fuel calls
        = (cosine_result sv cands top_n profile rng, cache, c) := by
  intro fuel
  induction fuel with
  | zero => intro attempt calls; exact ⟨calls, rfl⟩
  | succ n ih =>
    intro attempt calls
    simp only [attemptLoop]
    cases ho : outcome attempt with
    | success es =>
      exfalso
      have hk := hfail attempt
      rw [ho] at hk
      simp [Outcome.isSuccess] at hk
    | unrecoverable => exact ⟨calls + 1, rfl⟩
    | transient => exact ih (attempt + 1) (calls + 1)

lemma cosHalf (c : Candidate) (f : Fin 8 → ℚ) (hf : ∀ i, f i = 1/2) :
    weightedCosine svC (c, f) = 1 := by
  have hu : dotP (weightedStudent svC) (weightedStudent svC) = 50 := by
    simp [dotP, weightedStudent, student_norm, weights, svC, Fin.sum_univ_eight]
    norm_num
  have hv : dotP (fun i => ((f i : ℚ) : ℝ) * ((weights svC i : ℚ) : ℝ))
      (fun i => ((f i : ℚ) : ℝ) * ((weights svC i : ℚ) : ℝ)) = 50 := by
    simp [dotP, weights, svC, Fin.sum_univ_eight, hf]
    norm_num
  have huv : dotP (weightedStudent svC) (fun i => ((f i : ℚ) : ℝ) * ((weights svC i : ℚ) : ℝ)) = 50 := by
    simp [dotP, weightedStudent, student_norm, weights, svC, Fin.sum_univ_eight, hf]
    norm_num
  rw [weightedCosine, cosineSim, hu, hv, huv, Real.mul_self_sqrt (by norm_num)]
  norm_num

lemma cosZero (c : Candidate) (f : Fin 8 → ℚ) (hf : ∀ i, f i = 0) :
    weightedCosine svC (c, f) = 0 := by
  have huv : dotP (weightedStudent svC) (fun i => ((f i : ℚ) : ℝ) * ((weights svC i : ℚ) : ℝ)) = 0 := by
    simp [dotP, weightedStudent, student_norm, weights, svC, Fin.sum_univ_eight, hf]
  rw [weightedCosine, cosineSim, huv, zero_div]

lemma llmSuccess_length_le (top_n : ℕ) (sl : List (Candidate × (Fin 8 → ℚ)))
    (entries : List LLMEntry) : (llmSuccess top_n sl entries).matchList.length ≤ top_n := by
  simp only [llmSuccess, List.length_map, List.length_take]
  exact min_le_left _ _

lemma composite_scores_tie :
    composite_scores svC [(cB, fun _ => (1/2:ℚ)), (cB2, fun _ => (1/2:ℚ))] none 0.20
      = [4/5, 4/5] := by
  simp only [composite_scores, List.map_cons, List.map_nil, compositeOne,
    cosHalf _ _ (fun _ => rfl), affinityOneOpt]
  norm_num

lemma argsortDesc_tie : argsortDesc [(4:ℝ)/5, 4/5] = [0, 1] := by
  rw [argsortDesc]
  rw [show ([(4:ℝ)/5, 4/5] : List ℝ).length = 2 from rfl,
      show List.range 2 = [0, 1] from rfl]
  simp only [List.insertionSort, List.orderedInsert]
  rw [if_pos (show argScore [(4:ℝ)/5, 4/5] 0 ≥ argScore [(4:ℝ)/5, 4/5] 1 by simp [argScore])]

lemma scaleWindow_tie : scaleWindow [(4:ℝ)/5, 4/5] = [0.85, 0.85] := by
  rw [scaleWindow]
  simp only [listMin, listMax, List.foldl, min_self, max_self]
  rw [if_neg (by norm_num)]
  rfl

lemma wcm_tie_scores :
    (weighted_cosine_match svC [cB, cB2] 4 none rng0).map MatchResult.similarity_score
      = [round4 0.85, round4 0.85] := by
  have hd : dropna [cB, cB2] = [(cB, fun _ => (1/2:ℚ)), (cB2, fun _ => (1/2:ℚ))] := rfl
  rw [weighted_cosine_match, hd]
  simp only [List.isEmpty_cons, composite_scores_tie, argsortDesc_tie, List.take, argScore,
    List.map_cons, List.map_nil, List.getD, List.get?, Option.getD_some]
  rw [scaleWindow_tie]
  simp [List.zip, List.zipWith, List.enum, List.enumFrom, mkFallbackMatch]

lemma map_argScore_range (s : List ℝ) : (List.range s.length).map (argScore s) = s := by
  apply List.ext_get
  · simp
  · intro n h1 h2
    simp [List.get_map, List.get_range, argScore, List.getD, List.getElem?_eq_getElem h2]

lemma argsort_map_eq_sort (s : List ℝ) :
    (argsortDesc s).map (argScore s)
      = List.insertionSort (fun a b : ℝ => a ≥ b) s := by
  haveI : IsTotal ℝ (fun a b : ℝ => a ≥ b) := ⟨fun a b => le_total b a⟩
  haveI : IsTrans ℝ (fun a b : ℝ => a ≥ b) := ⟨fun a b c h1 h2 => le_trans h2 h1⟩
  haveI : IsAntisymm ℝ (fun a b : ℝ => a ≥ b) := ⟨fun a b h1 h2 => le_antisymm h2 h1⟩
  have hperm : ((argsortDesc s).map (argScore s)).Perm
      (List.insertionSort (fun a b : ℝ => a ≥ b) s) := by
    have p1 : ((argsortDesc s).map (argScore s)).Perm
        ((List.range s.length).map (argScore s)) := (argsortDesc_perm s).map _
    rw [map_argScore_range s] at p1
    exact p1.trans (List.perm_insertionSort _ _).symm
  exact List.eq_of_perm_of_sorted hperm (List.pairwise_map.mpr (argsortDesc_sorted s))
    (List.sorted_insertionSort _ _)

lemma map_filterMap_get? {α β : Type} (l : List α) (f : α → β) (d : β) :
    ∀ (tis : List ℕ), (∀ i ∈ tis, i < l.length) →
      ((tis.filterMap (fun i => l.get? i)).map f) = tis.map (fun i => (l.map f).getD i d)
  | [], _ => by simp
  | t :: ts, hb => by
    have ht : t < l.length := hb t (by simp)
    have hcd : l.get? t = some (l.get ⟨t, ht⟩) := List.get?_eq_get ht
    have ih := map_filterMap_get? l f d ts (fun i hi => hb i (by simp [hi]))
    simp only [List.filterMap, hcd, List.map_cons]
    rw [ih]
    congr 1
    have h2 : t < (l.map f).length := by simpa using ht
    rw [List.getD, List.get?_eq_get h2, Option.getD_some, List.get_map]

lemma find_filter_names (l : List (Candidate × (Fin 8 → ℚ))) (names : List String) (nm : String)
    (hmem : nm ∈ names) :
    (l.filter (fun cd => names.contains cd.1.instnm)).find? (fun cd => cd.1.instnm == nm)
      = l.find? (fun cd => cd.1.instnm == nm) := by
  induction l with
  | nil => rfl
  | cons a ts ih =>
    rw [List.filter_cons]
    by_cases hp : names.contains a.1.instnm = true
    · rw [if_pos hp]
      by_cases hq : ((fun cd : Candidate × (Fin 8 → ℚ) => cd.1.instnm == nm) a) = true
      · rw [@List.find?_cons_of_pos _ (fun cd => cd.1.instnm == nm) a
            (List.filter (fun cd => names.contains cd.1.instnm) ts) hq,
          @List.find?_cons_of_pos _ (fun cd => cd.1.instnm == nm) a ts hq]
      · rw [@List.find?_cons_of_neg _ (fun cd => cd.1.instnm == nm) a
            (List.filter (fun cd => names.contains cd.1.instnm) ts) hq,
          @List.find?_cons_of_neg _ (fun cd => cd.1.instnm == nm) a ts hq, ih]
    · rw [if_neg hp]
      have hq : ¬ (((fun cd : Candidate × (Fin 8 → ℚ) => cd.1.instnm == nm) a) = true) := by
        intro he
        apply hp
        rw [show a.1.instnm = nm from by simpa using he]
        exact List.elem_eq_true_of_mem hmem
      rw [ih, @List.find?_cons_of_neg _ (fun cd => cd.1.instnm == nm) a ts hq]

lemma attemptLoop_success_first (sv : StudentVec) (top_n : ℕ) (profile : Option Profile)
    (rng : ℕ → ℕ × ℕ) (cands : List Candidate)
    (shortlisted : List (Candidate × (Fin 8 → ℚ))) (key : CacheKey)
    (cache : List (CacheKey × MatchResponse)) (outcome : ℕ → Outcome)
    (attempt fuel calls : ℕ) (entries : List LLMEntry)
    (ho : outcome attempt = Outcome.success entries) :
    attemptLoop sv top_n profile rng cands shortlisted key cache outcome attempt (fuel + 1) calls
      = (llmSuccess top_n shortlisted entries,
         (key, llmSuccess top_n shortlisted entries) :: cache, calls + 1) := by
  simp only [attemptLoop, ho]

lemma cacheLookup_cons_self (k : CacheKey) (r : MatchResponse)
    (rest : List (CacheKey × MatchResponse)) :
    cacheLookup ((k, r) :: rest) k = some r := by
  simp [cacheLookup]

lemma getMatches_cases (sv : StudentVec) (top_n : ℕ) (profile : Option Profile)
    (merged : List Candidate) (apiKey : Bool) (outcome : ℕ → Outcome)
    (rng : ℕ → ℕ × ℕ) (cache : List (CacheKey × MatchResponse))
    (hc : cacheLookup cache (cache_key sv profile top_n) = none) :
    (getMatches sv top_n profile merged apiKey outcome rng cache
        = (⟨[], [], false⟩, cache, 0)
      ∧ (merged.filter (fun c => (c.dims 0).isSome)).isEmpty = true) ∨
    ((getMatches sv top_n profile merged apiKey outcome rng cache).1.used_fallback = true
      ∧ (getMatches sv top_n profile merged apiKey outcome rng cache).2.1 = cache) ∨
    ((getMatches sv top_n profile merged apiKey outcome rng cache).2.1
        = (cache_key sv profile top_n, (getMatches sv top_n profile merged apiKey outcome rng cache).1) :: cache
      ∧ (getMatches sv top_n profile merged apiKey outcome rng cache).1.used_fallback = false) := by
  simp only [getMatches, hc]
  split
  case isTrue h => left; exact ⟨rfl, h⟩
  case isFalse h =>
    split
    case isTrue hk =>
      rcases attemptLoop_cases sv top_n profile rng
        (merged.filter (fun c => (c.dims 0).isSome))
        (shortlist sv (merged.filter (fun c => (c.dims 0).isSome)) 15 profile)
        (cache_key sv profile top_n) cache outcome 3 1 0 with ⟨h1, h2⟩ | ⟨entries, h1, h2⟩
      · right; left
        exact ⟨by rw [h1]; rfl, h2⟩
      · right; right
        refine ⟨h2, by rw [h1]; rfl⟩
    case isFalse hk =>
      right; left
      exact ⟨rfl, rfl⟩

lemma fmtPct_85 : fmtPct (17/20 : ℝ) = "85%" := by
  rw [fmtPct]
  have h : (100 : ℝ) * (17/20) = ((85:ℤ):ℝ) := by norm_num
  rw [h, round_intCast]
  rfl

/-! ### Claims -/

/-- C1: for a valid preference vector (cache miss, configured client,
nonempty pool), if every attempt to call the external reasoning service
fails, `get_matches` returns `used_fallback = true` with matches produced by
the fallback explainer over the full filtered candidate pool (not the
15-element shortlist), at most `top_n` of them, each with a non-empty
explanation string. -/
theorem C1_all_attempts_fail_uses_fallback
    (sv : StudentVec) (top_n : ℕ) (profile : Option Profile)
    (merged : List Candidate) (outcome : ℕ → Outcome) (rng : ℕ → ℕ × ℕ)
    (cache : List (CacheKey × MatchResponse))
    (hc : cacheLookup cache (cache_key sv profile top_n) = none)
    (hne : (merged.filter (fun c => (c.dims 0).isSome)).isEmpty = false)
    (hfail : ∀ k, (outcome k).isSuccess = false) :
    (getMatches sv top_n profile merged true outcome rng cache).1.used_fallback = true ∧
    (getMatches sv top_n profile merged true outcome rng cache).1.matchList
      = weighted_cosine_match sv (merged.filter (fun c => (c.dims 0).isSome)) top_n profile rng ∧
    (getMatches sv top_n profile merged true outcome rng cache).1.matchList.length ≤ top_n ∧
    ∀ m ∈ (getMatches sv top_n profile merged true outcome rng cache).1.matchList,
      m.explanation ≠ "" := by
  obtain ⟨c, hloop⟩ := attemptLoop_allFail sv top_n profile rng
    (merged.filter (fun c => (c.dims 0).isSome))
    (shortlist sv (merged.filter (fun c => (c.dims 0).isSome)) 15 profile)
    (cache_key sv profile top_n) cache outcome hfail 3 1 0
  have hr : (getMatches sv top_n profile merged true outcome rng cache).1
      = cosine_result sv (merged.filter (fun c => (c.dims 0).isSome)) top_n profile rng := by
    simp only [getMatches, hc, hne]
    rw [hloop]
    simp
  rw [hr]
  exact ⟨rfl, rfl, wcm_length_le _ _ _ _ _, wcm_explanation_ne_empty _ _ _ _ _⟩

/-- Witness for C1 at a concrete input: singleton pool `[cB]`, empty cache,
every attempt a transient failure. -/
theorem C1_all_attempts_fail_uses_fallback_witness :
    (getMatches svC 4 none [cB] true (fun _ => Outcome.transient) rng0 []).1.used_fallback = true ∧
    (getMatches svC 4 none [cB] true (fun _ => Outcome.transient) rng0 []).1.matchList
      = weighted_cosine_match svC ([cB].filter (fun c => (c.dims 0).isSome)) 4 none rng0 ∧
    (getMatches svC 4 none [cB] true (fun _ => Outcome.transient) rng0 []).1.matchList.length ≤ 4 ∧
    ∀ m ∈ (getMatches svC 4 none [cB] true (fun _ => Outcome.transient) rng0 []).1.matchList,
      m.explanation ≠ "" :=
  C1_all_attempts_fail_uses_fallback svC 4 none [cB] (fun _ => Outcome.transient) rng0 []
    rfl rfl (fun _ => rfl)

/-- C2 counterexample: two candidates with identical experience vectors tie
on composite score, and the fallback path returns both with the same
`similarity_score` (0.85 after the degenerate-window rescale), so the
returned matches are not strictly descending. -/
theorem C2_counterexample :
    ¬ List.Chain' (fun a b : ℝ => a > b)
      (((getMatches svC 4 none [cB, cB2] false (fun _ => Outcome.transient) rng0 []).1.matchList).map
        MatchResult.similarity_score) := by
  have hgm : (getMatches svC 4 none [cB, cB2] false (fun _ => Outcome.transient) rng0 []).1.matchList
      = weighted_cosine_match svC [cB, cB2] 4 none rng0 := rfl
  rw [hgm, wcm_tie_scores]
  simp

/-- C2 amended: on a cache miss `get_matches` returns at most `top_n`
matches on every path, and on the fallback path (`used_fallback = true`) the
matches are ordered by non-strictly descending `similarity_score` (ties in
composite score produce equal scores; no institution-id tie-break exists);
the external-service path keeps the service's own order. -/
theorem C2_amended (sv : StudentVec) (top_n : ℕ) (profile : Option Profile)
    (merged : List Candidate) (apiKey : Bool) (outcome : ℕ → Outcome)
    (rng : ℕ → ℕ × ℕ) (cache : List (CacheKey × MatchResponse))
    (hc : cacheLookup cache (cache_key sv profile top_n) = none) :
    (getMatches sv top_n profile merged apiKey outcome rng cache).1.matchList.length ≤ top_n ∧
    ((getMatches sv top_n profile merged apiKey outcome rng cache).1.used_fallback = true →
      List.Sorted (fun a b : ℝ => a ≥ b)
        ((getMatches sv top_n profile merged apiKey outcome rng cache).1.matchList.map
          MatchResult.similarity_score)) := by
  simp only [getMatches, hc]
  split
  case isTrue h => exact ⟨by simp, by simp⟩
  case isFalse h =>
    split
    case isTrue hk =>
      rcases attemptLoop_cases sv top_n profile rng
        (merged.filter (fun c => (c.dims 0).isSome))
        (shortlist sv (merged.filter (fun c => (c.dims 0).isSome)) 15 profile)
        (cache_key sv profile top_n) cache outcome 3 1 0 with ⟨h1, _⟩ | ⟨entries, h1, _⟩
      · rw [h1]
        exact ⟨wcm_length_le _ _ _ _ _, fun _ => wcm_scores_sorted _ _ _ _ _⟩
      · rw [h1]
        refine ⟨llmSuccess_length_le _ _ _, fun hf => ?_⟩
        exact absurd hf (by simp [llmSuccess])
    case isFalse hk =>
      exact ⟨wcm_length_le _ _ _ _ _, fun _ => wcm_scores_sorted _ _ _ _ _⟩

/-- Witness for C2 amended at a concrete input. -/
theorem C2_amended_witness :
    (getMatches svC 4 none [cB] false (fun _ => Outcome.transient) rng0 []).1.matchList.length ≤ 4 ∧
    ((getMatches svC 4 none [cB] false (fun _ => Outcome.transient) rng0 []).1.used_fallback = true →
      List.Sorted (fun a b : ℝ => a ≥ b)
        ((getMatches svC 4 none [cB] false (fun _ => Outcome.transient) rng0 []).1.matchList.map
          MatchResult.similarity_score)) :=
  C2_amended svC 4 none [cB] false (fun _ => Outcome.transient) rng0 [] rfl

/-- C3 counterexample: the composite scorer's normalized student entry for a
rating of 1 is `1/10`, not `(1-1)/9 = 0` — `student_norm` divides by 10. -/
theorem C3_counterexample :
    ¬ (student_norm svOne 0 = (svOne 0 - 1) / 9) := by
  norm_num [student_norm, svOne]

/-- C3 amended: the normalized student vector satisfies
`student_norm[i] = value_i / 10` (mapping `[1,10]` into `[1/10, 1]`), and the
weight array is the unnormalized `weight[i] = value_i`. -/
theorem C3_amended (sv : StudentVec) (i : Fin 8) (h1 : 1 ≤ sv i) (h2 : sv i ≤ 10) :
    student_norm sv i = sv i / 10 ∧ weights sv i = sv i ∧
    1/10 ≤ student_norm sv i ∧ student_norm sv i ≤ 1 := by
  refine ⟨rfl, rfl, ?_, ?_⟩
  · rw [student_norm]
    linarith
  · rw [student_norm]
    linarith

/-- Witness for C3 amended at the all-fives preference vector. -/
theorem C3_amended_witness :
    student_norm svC 0 = svC 0 / 10 ∧ weights svC 0 = svC 0 ∧
    1/10 ≤ student_norm svC 0 ∧ student_norm svC 0 ≤ 1 :=
  C3_amended svC 0 (by norm_num [svC]) (by norm_num [svC])

/-- C4 counterexample: with a two-candidate pool whose first candidate
scores 0 and second scores 4/5, the shortlist selector (pool size ≤ K)
returns the pool in its original order, not sorted descending by composite
score. -/
theorem C4_counterexample :
    (shortlist svC [cA, cB] 15 none).map Prod.fst = [cA, cB] ∧
    composite_scores svC (dropna [cA, cB]) none 0.20 = [0, 4/5] ∧
    ((0:ℝ) < 4/5) := by
  refine ⟨rfl, ?_, by norm_num⟩
  have hd : dropna [cA, cB] = [(cA, fun _ => (0:ℚ)), (cB, fun _ => (1/2:ℚ))] := rfl
  rw [hd]
  simp only [composite_scores, List.map_cons, List.map_nil, compositeOne,
    cosZero _ _ (fun _ => rfl), cosHalf _ _ (fun _ => rfl), affinityOneOpt]
  norm_num

/-- C4 amended: when the clean pool has at most `K` rows the selector
returns it unchanged, in input order (no sorting); otherwise it returns
exactly `K` candidates whose composite scores are the `K` largest, in
descending order (ties in the model's stable order — the source's unstable
`argsort` leaves tie order unspecified, and no id tie-break exists). -/
theorem C4_amended (sv : StudentVec) (cands : List Candidate) (K : ℕ)
    (profile : Option Profile) :
    (((dropna cands).isEmpty = true ∨ (dropna cands).length ≤ K) →
      shortlist sv cands K profile = dropna cands) ∧
    ((dropna cands).isEmpty = false → K < (dropna cands).length →
      (shortlist sv cands K profile).length = K ∧
      (shortlist sv cands K profile).map (compositeOne sv profile 0.20)
        = (List.insertionSort (fun a b : ℝ => a ≥ b)
            (composite_scores sv (dropna cands) profile 0.20)).take K) := by
  constructor
  · intro h
    rw [shortlist, if_pos (by rcases h with h | h <;> simp [h])]
  · intro hne hlt
    have hcond : ((dropna cands).isEmpty || decide ((dropna cands).length ≤ K)) = false := by
      rw [hne, Bool.false_or, decide_eq_false_iff_not]
      omega
    rw [shortlist, if_neg (by simp [hcond])]
    have hlen_scores : (composite_scores sv (dropna cands) profile 0.20).length
        = (dropna cands).length := by rw [composite_scores, List.length_map]
    have hbound : ∀ i ∈ (argsortDesc (composite_scores sv (dropna cands) profile 0.20)).take K,
        i < (dropna cands).length := by
      intro i hi
      have := argsortDesc_mem_lt _ (List.mem_of_mem_take hi)
      omega
    have hmap := map_filterMap_get? (dropna cands) (compositeOne sv profile 0.20) 0
      ((argsortDesc (composite_scores sv (dropna cands) profile 0.20)).take K) hbound
    constructor
    · have hlm := congrArg List.length hmap
      rw [List.length_map, List.length_map] at hlm
      rw [hlm, List.length_take]
      have hal : (argsortDesc (composite_scores sv (dropna cands) profile 0.20)).length
          = (composite_scores sv (dropna cands) profile 0.20).length :=
        (argsortDesc_perm _).length_eq.trans (List.length_range _)
      omega
    · rw [hmap]
      have hfun : (fun i => ((dropna cands).map (compositeOne sv profile 0.20)).getD i 0)
          = argScore (composite_scores sv (dropna cands) profile 0.20) := by
        funext i
        rw [argScore, composite_scores]
      rw [hfun, List.map_take, argsort_map_eq_sort]

/-- Witness for C4 amended: the small-pool branch at a concrete input. -/
theorem C4_amended_witness :
    shortlist svC [cA, cB] 15 none = dropna [cA, cB] :=
  (C4_amended svC [cA, cB] 15 none).1 (Or.inr (by decide))

/-- C5 counterexample: without a profile the affinity term is 0, but the
composite score of a candidate whose weighted cosine similarity is exactly 1
is `0.8`, not 1 — composite equals `0.8 x cosine`, not the cosine itself. -/
theorem C5_counterexample :
    weightedCosine svC (cB, fun _ => (1/2:ℚ)) = 1 ∧
    composite_scores svC (dropna [cB]) none 0.20 = [4/5] ∧
    ((4:ℝ)/5 ≠ 1) := by
  refine ⟨cosHalf _ _ (fun _ => rfl), ?_, by norm_num⟩
  have hd : dropna [cB] = [(cB, fun _ => (1/2:ℚ))] := rfl
  rw [hd]
  simp only [composite_scores, List.map_cons, List.map_nil, compositeOne,
    cosHalf _ _ (fun _ => rfl), affinityOneOpt]
  norm_num

/-- C5 amended: when the profile is omitted the affinity term is exactly 0
for every candidate, and each candidate's composite score equals
`(1 - affinity_weight) x weighted cosine = 0.8 x cosine` (proportional to,
but not equal to, the weighted cosine similarity). -/
theorem C5_amended (sv : StudentVec) (cands : List (Candidate × (Fin 8 → ℚ))) :
    profile_affinity (cands.map Prod.fst) none = (cands.map Prod.fst).map (fun _ => 0) ∧
    composite_scores sv cands none 0.20
      = cands.map (fun cd => 0.8 * weightedCosine sv cd) := by
  constructor
  · rfl
  · rw [composite_scores]
    have hfn : compositeOne sv none 0.20 = fun cd => 0.8 * weightedCosine sv cd := by
      funext cd
      rw [compositeOne, affinityOneOpt]
      push_cast
      ring
    rw [hfn]

/-- C6 counterexample: on a schema-valid external response naming a college
absent from the shortlist, the entry is kept in the returned matches
(un-enriched, `dims = none`), not dropped. -/
theorem C6_counterexample :
    ((getMatches svC 4 none [cB] true (fun _ => Outcome.success [entryGhost]) rng0 []).1.matchList.map
      MatchResult.college_name = ["Ghost University"]) ∧
    ((getMatches svC 4 none [cB] true (fun _ => Outcome.success [entryGhost]) rng0 []).1.matchList.map
      MatchResult.dims = [none]) ∧
    (getMatches svC 4 none [cB] true (fun _ => Outcome.success [entryGhost]) rng0 []).1.used_fallback
      = false :=
  ⟨rfl, rfl, rfl⟩

/-- C6 amended: on a well-formed, schema-valid external response (success on
the first attempt, cache miss, nonempty pool), `used_fallback = false`,
every returned entry is kept — entries whose name matches no shortlisted
candidate are NOT dropped, they are appended un-enriched — and each kept
entry carries the dimension vector and id of the first shortlisted
candidate with its name (or `none` when there is no such candidate). -/
theorem C6_amended (sv : StudentVec) (top_n : ℕ) (profile : Option Profile)
    (merged : List Candidate) (outcome : ℕ → Outcome) (rng : ℕ → ℕ × ℕ)
    (cache : List (CacheKey × MatchResponse)) (entries : List LLMEntry)
    (hc : cacheLookup cache (cache_key sv profile top_n) = none)
    (hne : (merged.filter (fun c => (c.dims 0).isSome)).isEmpty = false)
    (ho : outcome 1 = Outcome.success entries) :
    (getMatches sv top_n profile merged true outcome rng cache).1.used_fallback = false ∧
    (getMatches sv top_n profile merged true outcome rng cache).1.matchList.map
      MatchResult.college_name = (entries.take top_n).map LLMEntry.college_name ∧
    ∀ m ∈ (getMatches sv top_n profile merged true outcome rng cache).1.matchList,
      m.dims = (((shortlist sv (merged.filter (fun c => (c.dims 0).isSome)) 15 profile).find?
          (fun cd => cd.1.instnm == m.college_name)).map Prod.snd) ∧
      m.unitid = (((shortlist sv (merged.filter (fun c => (c.dims 0).isSome)) 15 profile).find?
          (fun cd => cd.1.instnm == m.college_name)).map (fun cd => cd.1.unitid)) := by
  have hr : (getMatches sv top_n profile merged true outcome rng cache).1
      = llmSuccess top_n (shortlist sv (merged.filter (fun c => (c.dims 0).isSome)) 15 profile)
          entries := by
    simp only [getMatches, hc, hne]
    rw [show (3:ℕ) = 2 + 1 from rfl,
      attemptLoop_success_first sv top_n profile rng _ _ _ cache outcome 1 2 0 entries ho]
    simp
  rw [hr]
  set sl := shortlist sv (merged.filter (fun c => (c.dims 0).isSome)) 15 profile with hsl
  refine ⟨rfl, ?_, ?_⟩
  · simp only [llmSuccess, List.map_map]
    apply List.map_congr_left
    intro e he
    simp only [Function.comp]
    split <;> rfl
  · intro m hm
    simp only [llmSuccess] at hm
    obtain ⟨e, he, hme⟩ := List.mem_map.mp hm
    have hmem : e.college_name ∈ entries.map (fun e => e.college_name) :=
      List.mem_map_of_mem _ (List.mem_of_mem_take he)
    have hfind := find_filter_names sl (entries.map (fun e => e.college_name))
      e.college_name hmem
    cases hf : (sl.filter (fun cd => (entries.map (fun e => e.college_name)).contains cd.1.instnm)).find?
        (fun cd => cd.1.instnm == e.college_name) with
    | none =>
      rw [hf] at hfind
      rw [← hme]
      simp only [hf]
      constructor <;> simp [← hfind, hf]
    | some cd =>
      rw [hf] at hfind
      rw [← hme]
      simp only [hf]
      constructor <;> simp [← hfind, hf]

/-- Witness for C6 amended: the response names the shortlisted `cB`, and the
returned entry is enriched with its dimensions and id. -/
theorem C6_amended_witness :
    (getMatches svC 4 none [cB] true (fun _ => Outcome.success [entryBeta]) rng0 []).1.used_fallback
      = false ∧
    (getMatches svC 4 none [cB] true (fun _ => Outcome.success [entryBeta]) rng0 []).1.matchList.map
      MatchResult.college_name = ([entryBeta].take 4).map LLMEntry.college_name ∧
    ∀ m ∈ (getMatches svC 4 none [cB] true (fun _ => Outcome.success [entryBeta]) rng0 []).1.matchList,
      m.dims = (((shortlist svC ([cB].filter (fun c => (c.dims 0).isSome)) 15 none).find?
          (fun cd => cd.1.instnm == m.college_name)).map Prod.snd) ∧
      m.unitid = (((shortlist svC ([cB].filter (fun c => (c.dims 0).isSome)) 15 none).find?
          (fun cd => cd.1.instnm == m.college_name)).map (fun cd => cd.1.unitid)) :=
  C6_amended svC 4 none [cB] (fun _ => Outcome.success [entryBeta]) rng0 [] [entryBeta]
    rfl rfl rfl

/-- C7 counterexample: a first call whose external attempts all fail
produces a fallback result that is NOT cached; a second identical call
re-invokes the external service (one call), succeeds, and returns a
different value (`used_fallback` flips from true to false). -/
theorem C7_counterexample :
    (getMatches svC 4 none [cB] true (fun _ => Outcome.transient) rng0 []).1.used_fallback = true ∧
    (getMatches svC 4 none [cB] true (fun _ => Outcome.transient) rng0 []).2.1 = [] ∧
    (getMatches svC 4 none [cB] true (fun _ => Outcome.success []) rng0
      (getMatches svC 4 none [cB] true (fun _ => Outcome.transient) rng0 []).2.1).1.used_fallback = false ∧
    (getMatches svC 4 none [cB] true (fun _ => Outcome.success []) rng0
      (getMatches svC 4 none [cB] true (fun _ => Outcome.transient) rng0 []).2.1).2.2 = 1 ∧
    (getMatches svC 4 none [cB] true (fun _ => Outcome.success []) rng0
      (getMatches svC 4 none [cB] true (fun _ => Outcome.transient) rng0 []).2.1).1
      ≠ (getMatches svC 4 none [cB] true (fun _ => Outcome.transient) rng0 []).1 := by
  refine ⟨rfl, rfl, rfl, rfl, ?_⟩
  intro h
  have hb := congrArg MatchResponse.used_fallback h
  rw [show (getMatches svC 4 none [cB] true (fun _ => Outcome.success []) rng0
      (getMatches svC 4 none [cB] true (fun _ => Outcome.transient) rng0 []).2.1).1.used_fallback
      = false from rfl] at hb
  rw [show (getMatches svC 4 none [cB] true (fun _ => Outcome.transient) rng0 []).1.used_fallback
      = true from rfl] at hb
  exact Bool.false_ne_true hb

/-- C7 amended: only successful external responses are cached.  If the first
call (on a cache miss) returns with `used_fallback = false`, a second call
with identical preferences, profile and `top_n` returns the same value and
issues no external call; a fallback result is not cached and an identical
follow-up request re-runs the whole pipeline, external attempts included. -/
theorem C7_amended (sv : StudentVec) (top_n : ℕ) (profile : Option Profile)
    (merged : List Candidate) (apiKey : Bool) (outcome outcome2 : ℕ → Outcome)
    (rng rng2 : ℕ → ℕ × ℕ) (cache : List (CacheKey × MatchResponse))
    (hc : cacheLookup cache (cache_key sv profile top_n) = none)
    (hf : (getMatches sv top_n profile merged apiKey outcome rng cache).1.used_fallback = false) :
    (getMatches sv top_n profile merged apiKey outcome2 rng2
        (getMatches sv top_n profile merged apiKey outcome rng cache).2.1).1
      = (getMatches sv top_n profile merged apiKey outcome rng cache).1 ∧
    (getMatches sv top_n profile merged apiKey outcome2 rng2
        (getMatches sv top_n profile merged apiKey outcome rng cache).2.1).2.2 = 0 := by
  rcases getMatches_cases sv top_n profile merged apiKey outcome rng cache hc
    with ⟨heq, hemp⟩ | ⟨ht, _⟩ | ⟨hcache, _⟩
  · rw [heq]
    have hsecond : getMatches sv top_n profile merged apiKey outcome2 rng2 cache
        = (⟨[], [], false⟩, cache, 0) := by
      simp only [getMatches, hc, hemp]
      simp
    rw [hsecond]
    exact ⟨rfl, rfl⟩
  · rw [ht] at hf
    exact absurd hf (by simp)
  · rw [hcache]
    have hsecond : getMatches sv top_n profile merged apiKey outcome2 rng2
        ((cache_key sv profile top_n, (getMatches sv top_n profile merged apiKey outcome rng cache).1) :: cache)
        = ((getMatches sv top_n profile merged apiKey outcome rng cache).1,
           (cache_key sv profile top_n, (getMatches sv top_n profile merged apiKey outcome rng cache).1) :: cache, 0) := by
      simp only [getMatches]
      rw [cacheLookup_cons_self]
    rw [hsecond]
    exact ⟨rfl, rfl⟩

/-- Witness for C7 amended: a successful first call is cached and replayed. -/
theorem C7_amended_witness :
    (getMatches svC 4 none [cB] true (fun _ => Outcome.transient) rng0
        (getMatches svC 4 none [cB] true (fun _ => Outcome.success []) rng0 []).2.1).1
      = (getMatches svC 4 none [cB] true (fun _ => Outcome.success []) rng0 []).1 ∧
    (getMatches svC 4 none [cB] true (fun _ => Outcome.transient) rng0
        (getMatches svC 4 none [cB] true (fun _ => Outcome.success []) rng0 []).2.1).2.2 = 0 :=
  C7_amended svC 4 none [cB] true (fun _ => Outcome.success []) (fun _ => Outcome.transient)
    rng0 rng0 [] rfl rfl

/-- C8 counterexample: the fallback explainer consumes ambient draws of the
global random source; two runs with identical inputs but different ambient
draws produce different explanation strings, so the explainer is not
deterministic in its inputs alone. -/
theorem C8_counterexample :
    explain "Alpha University" "Springfield" "IL" (17/20) (fun _ => (1/2 : ℚ)) svC
        ["academic_intensity", "social_life", "inclusivity"] [] (0, 0)
      ≠ explain "Alpha University" "Springfield" "IL" (17/20) (fun _ => (1/2 : ℚ)) svC
        ["academic_intensity", "social_life", "inclusivity"] [] (1, 0) := by
  rw [explain.eq_def, explain.eq_def]
  simp only [fmtPct_85]
  decide

/-- C8 amended: the fallback explainer is a pure function of its inputs and
the ambient random draws; everything except the explanation string —
names, ids, scores, strengths, tradeoffs, dimension values — is independent
of the random source, but the explanation's phrase selection does depend on
the ambient draws. -/
theorem C8_amended (sv : StudentVec) (cands0 : List Candidate) (top_n : ℕ)
    (profile : Option Profile) (rng1 rng2 : ℕ → ℕ × ℕ) :
    (weighted_cosine_match sv cands0 top_n profile rng1).map MatchResult.core
      = (weighted_cosine_match sv cands0 top_n profile rng2).map MatchResult.core := by
  rw [weighted_cosine_match, weighted_cosine_match]
  split
  · rfl
  · rw [List.map_filterMap, List.map_filterMap]
    have hfn : (fun rp : ℕ × (ℕ × ℝ) =>
          (((dropna cands0).get? rp.2.1).map (fun cd => mkFallbackMatch sv rng1 rp.1 rp.2.2 cd)).map
            MatchResult.core)
        = (fun rp : ℕ × (ℕ × ℝ) =>
          (((dropna cands0).get? rp.2.1).map (fun cd => mkFallbackMatch sv rng2 rp.1 rp.2.2 cd)).map
            MatchResult.core) := by
      funext rp
      cases h : (dropna cands0).get? rp.2.1 with
      | none => simp
      | some cd => simp only [Option.map_some', mkFallbackMatch, MatchResult.core]
    rw [hfn]

/-- C9 counterexample: a request whose 8 preference values are all 12 (out
of the 1-10 range) is NOT rejected — `api_match` returns a success (here on
an empty pool), so out-of-range values never produce a validation error. -/
theorem C9_counterexample :
    prefsTwelve.lookup "social_life" = some 12 ∧ ¬ ((12:ℚ) ≤ 10) ∧
    apiMatch prefsTwelve 4 none [] false (fun _ => Outcome.transient) rng0 []
      = .ok (⟨[], [], false⟩, [], 0) := by
  refine ⟨rfl, by norm_num, rfl⟩

/-- C9 amended: if all 8 dimension keys are present the endpoint runs the
pipeline regardless of the values (no range validation exists); if some
dimension key is missing it fails before any scoring with an
`HTTPException` naming the first missing key. -/
theorem C9_amended (prefs : List (String × ℚ)) (top_n : ℕ) (profile : Option Profile)
    (merged : List Candidate) (apiKey : Bool) (outcome : ℕ → Outcome) (rng : ℕ → ℕ × ℕ)
    (cache : List (CacheKey × MatchResponse)) :
    ((∀ d ∈ EXPERIENCE_DIMS, prefs.any (fun kv => kv.1 == d) = true) →
      apiMatch prefs top_n profile merged apiKey outcome rng cache
        = .ok (getMatches (prefsVec prefs) top_n profile merged apiKey outcome rng cache)) ∧
    (∀ d, EXPERIENCE_DIMS.find? (fun d0 => !(prefs.any (fun kv => kv.1 == d0))) = some d →
      prefs.any (fun kv => kv.1 == d) = false ∧
      apiMatch prefs top_n profile merged apiKey outcome rng cache
        = .error ("Missing dimension: " ++ d)) := by
  constructor
  · intro hall
    have hfind : EXPERIENCE_DIMS.find? (fun d => !(prefs.any (fun kv => kv.1 == d))) = none := by
      apply List.find?_eq_none.mpr
      intro d hd
      simp [hall d hd]
    simp only [apiMatch, hfind]
  · intro d hd
    constructor
    · have := List.find?_some hd
      simpa using this
    · simp only [apiMatch, hd]

/-- Witness for C9 amended: a complete preference dict reaches the
pipeline. -/
theorem C9_amended_witness :
    apiMatch prefsGood 4 none [] false (fun _ => Outcome.transient) rng0 []
      = .ok (getMatches (prefsVec prefsGood) 4 none [] false (fun _ => Outcome.transient) rng0 []) :=
  (C9_amended prefsGood 4 none [] false (fun _ => Outcome.transient) rng0 []).1 (by decide)

/-- C10: with no API key configured (cache miss, nonempty pool),
`get_matches` issues no external call and no retries, immediately returns
the cosine fallback over the full filtered pool with `used_fallback = true`,
and stores nothing in the cache. -/
theorem C10_no_key_immediate_fallback (sv : StudentVec) (top_n : ℕ)
    (profile : Option Profile) (merged : List Candidate) (outcome : ℕ → Outcome)
    (rng : ℕ → ℕ × ℕ) (cache : List (CacheKey × MatchResponse))
    (hc : cacheLookup cache (cache_key sv profile top_n) = none)
    (hne : (merged.filter (fun c => (c.dims 0).isSome)).isEmpty = false) :
    getMatches sv top_n profile merged false outcome rng cache
      = (cosine_result sv (merged.filter (fun c => (c.dims 0).isSome)) top_n profile rng, cache, 0) ∧
    (getMatches sv top_n profile merged false outcome rng cache).1.used_fallback = true := by
  have h : getMatches sv top_n profile merged false outcome rng cache
      = (cosine_result sv (merged.filter (fun c => (c.dims 0).isSome)) top_n profile rng, cache, 0) := by
    simp only [getMatches, hc, hne]
    simp
  exact ⟨h, by rw [h]; rfl⟩

/-- Witness for C10 at a concrete input. -/
theorem C10_no_key_immediate_fallback_witness :
    getMatches svC 4 none [cB] false (fun _ => Outcome.transient) rng0 []
      = (cosine_result svC ([cB].filter (fun c => (c.dims 0).isSome)) 4 none rng0, [], 0) ∧
    (getMatches svC 4 none [cB] false (fun _ => Outcome.transient) rng0 []).1.used_fallback = true :=
  C10_no_key_immediate_fallback svC 4 none [cB] (fun _ => Outcome.transient) rng0 [] rfl rfl

end EduAlign
